import Mathlib

/-!
Shallow embedding of `src/test-harness.js`, a repeated-trial browser test
orchestrator. The browser-automation client (`chrome-ws-lib.js`) is an external
collaborator and is modelled as a record of effectful capabilities returning
`Except String` results; a thrown exception is `Except.error msg` (JS code reads
`e.message`, modelled by carrying the message string directly). Awaited sleeps
only pace the run and have no observable effect in this model. JS numeric
arithmetic on the counters is exact at every value reached here, so counters are
`Nat`; the one floating-point expression (the failure-rate display) is modelled
exactly, with division-by-zero producing the NaN marker that `toFixed` renders
as the string NaN.
-/

deriving instance DecidableEq for Except

namespace TestHarness

/-- Outcome of one test step, as built by the `testClick` / `testType` family:
`\x7b success: true, value? \x7d` or `\x7b success: false, error \x7d`. -/
inductive Outcome where
  | success (value : Option String)
  | failure (error : String)
deriving DecidableEq

/-- One entry of `results.errors`: `\x7b iteration, test, error \x7d`. -/
structure FailureRecord where
  iteration : Nat
  test : String
  error : String
deriving DecidableEq

/-- The global `results` accumulator: `\x7b passed, failed, errors \x7d`. -/
structure Results where
  passed : Nat
  failed : Nat
  errors : List FailureRecord
deriving DecidableEq

/-- Initial value of `results`: zero counts, no errors. -/
def initialResults : Results := { passed := 0, failed := 0, errors := [] }

/-- Capability interface of the external `chromeWs` automation client. Each
method either completes (`Except.ok`) or throws (`Except.error message`). -/
structure ChromeWs where
  initializeSession : Except String Nat
  navigate : Nat → String → Except String Unit
  click : Nat → String → Except String Unit
  fill : Nat → String → String → Except String Unit
  eval : Nat → String → Except String String

/-- Converts the result of a unit-valued client call into an Outcome, the
common body of every try/catch block that reports `success: true` on
completion and `success: false, error: e.message` on a throw. -/
def outcomeOfUnit : Except String Unit → Outcome
  | .ok _ => .success none
  | .error e => .failure e

/-- Model of `JSON.stringify` on the selector strings used by this harness
(quote, escaping backslash and double-quote; no selector here contains
control characters, so the remaining JSON escapes never fire). -/
def jsStringLit (s : String) : String :=
  "\"" ++ s.foldl
    (fun acc c =>
      acc ++ (if c = '"' then "\\\"" else if c = '\\' then "\\\\" else String.singleton c))
    "" ++ "\""

/-- The read-back expression of `testType`:
`document.querySelector(JSON.stringify(selector))?.value || two-quotes`. -/
def readBackExpr (selector : String) : String :=
  "document.querySelector(" ++ jsStringLit selector ++ ")?.value || \x27\x27"

/-- `testClick(tabIndex, selector)`: click, then report the try/catch result.
The `expectedChange` argument of the source is unused there and omitted. -/
def testClick (ws : ChromeWs) (tabIndex : Nat) (selector : String) : Outcome :=
  outcomeOfUnit (ws.click tabIndex selector)

/-- `testType(tabIndex, selector, text)`: fill, read the value back via eval,
succeed iff the read-back value is truthy and non-empty (for a string, both
mean non-empty); any thrown error becomes a Failure. -/
def testType (ws : ChromeWs) (tabIndex : Nat) (selector text : String) : Outcome :=
  match ws.fill tabIndex text selector with
  | .error e => .failure e
  | .ok _ =>
    match ws.eval tabIndex (readBackExpr selector) with
    | .error e => .failure e
    | .ok value =>
      if 0 < value.length then .success (some value)
      else .failure ("Value not set. Expected text, got: \"" ++ value ++ "\"")

/-- `testTypeAndEnter(tabIndex, selector, text)`: fill `text + backslash-n`
(the JS source writes a two-character backslash-n sequence), no read-back. -/
def testTypeAndEnter (ws : ChromeWs) (tabIndex : Nat) (selector text : String) : Outcome :=
  outcomeOfUnit (ws.fill tabIndex (text ++ "\\n") selector)

/-- `testXPathClick(tabIndex, xpath)`: same contract as `testClick`. -/
def testXPathClick (ws : ChromeWs) (tabIndex : Nat) (xpath : String) : Outcome :=
  outcomeOfUnit (ws.click tabIndex xpath)

/-- The multi-line script passed to eval by `clearTestPage`. -/
def clearScript : String :=
  "\n    document.querySelectorAll(\x27input, textarea\x27).forEach(el => \x7b\n      el.value = \x27\x27;\n      el.dispatchEvent(new Event(\x27input\x27, \x7b bubbles: true \x7d));\n    \x7d);\n  "

/-- `clearTestPage(tabIndex)`: a single awaited eval with NO try/catch; an
eval error propagates to the caller (the main iteration loop). -/
def clearTestPage (ws : ChromeWs) (tabIndex : Nat) : Except String Unit :=
  match ws.eval tabIndex clearScript with
  | .error e => .error e
  | .ok _ => .ok ()

/-- Shape of one entry of the `tests` array of `runIteration`, separating the
data (selector, payload) from the dispatch to the `testClick` or `testType`
family so the per-iteration payloads are inspectable. -/
inductive StepSpec where
  | click (selector : String)
  | type (selector text : String)
  | typeAndEnter (selector text : String)
  | xpathClick (xpath : String)
deriving DecidableEq

/-- Runs one StepSpec, dispatching exactly as the closures in the `tests`
arrays do. -/
def runStep (ws : ChromeWs) (tabIndex : Nat) : StepSpec → Outcome
  | .click selector => testClick ws tabIndex selector
  | .type selector text => testType ws tabIndex selector text
  | .typeAndEnter selector text => testTypeAndEnter ws tabIndex selector text
  | .xpathClick xpath => testXPathClick ws tabIndex xpath

/-- The `tests` array built by `runIteration` for a given iteration index:
nine steps, with the iteration index spliced into four of the payloads via
template literals. -/
def fixedPageSuite (iteration : Nat) : List (String × StepSpec) :=
  [("Click button", .click "#test-button"),
   ("Type in controlled input", .type "#controlled-input" ("test" ++ toString iteration)),
   ("Type in uncontrolled input", .type "#uncontrolled-input" ("test" ++ toString iteration)),
   ("Type in validated input", .type "#validated-input" "abc"),
   ("Type in nested input", .type "#nested-input" ("test" ++ toString iteration)),
   ("Type in transform input", .type "#transform-input" "hello"),
   ("Type in debounced input", .type "#debounced-input" ("test" ++ toString iteration)),
   ("Type in email input", .type "#email-input" "test@example.com"),
   ("Type in textarea", .type "#controlled-textarea" "line1\\nline2")]

/-- The payload text of a typing step (none for click steps). -/
def typePayload : StepSpec → Option String
  | .type _ text => some text
  | _ => none

/-- The payload texts of the typing steps of one fixed-page iteration, in
suite order. -/
def typingPayloads (iteration : Nat) : List String :=
  (fixedPageSuite iteration).filterMap (fun t => typePayload t.2)

/-- The recording body shared by the two call sites that consume an Outcome
(the loop in `runIteration` and the live-app branch of `main`): a Success
increments `passed`; a Failure increments `failed` and appends a
FailureRecord. -/
def record (r : Results) (iteration : Nat) (name : String) (o : Outcome) : Results :=
  match o with
  | .success _ => { r with passed := r.passed + 1 }
  | .failure msg =>
    { r with failed := r.failed + 1, errors := r.errors ++ [⟨iteration, name, msg⟩] }

/-- Records a list of named outcomes of one iteration in order. -/
def recordAll (r : Results) (iteration : Nat) (outs : List (String × Outcome)) : Results :=
  outs.foldl (fun acc o => record acc iteration o.1 o.2) r

/-- Records an arbitrary sequence of `record` calls, each with its own
iteration index, step name and outcome. -/
def recordSeq (r : Results) (calls : List (Nat × String × Outcome)) : Results :=
  calls.foldl (fun acc c => record acc c.1 c.2.1 c.2.2) r

/-- `runIteration(tabIndex, iteration)`: runs the nine steps in order,
pushing each named outcome into `iterationResults` and recording it into the
global results. The steps are independent client calls, so running them all
and then folding the recorder over the outcome list is the same interleaving
the source performs step by step. -/
def runIteration (ws : ChromeWs) (tabIndex iteration : Nat) (r : Results) :
    Results × List (String × Outcome) :=
  let outcomes := (fixedPageSuite iteration).map (fun t => (t.1, runStep ws tabIndex t.2))
  (recordAll r iteration outcomes, outcomes)

/-- XPath selector of the live-app creation control, tolerating anchor or
button markup. -/
def newOrgXPath : String :=
  "//a[text()=\x27New Organization\x27] | //button[text()=\x27New Organization\x27]"

/-- `runLiveAppTests(tabIndex, baseUrl, iteration)`: navigate to settings
(returning only that failure when navigation throws), then click the creation
control, type a per-iteration name, and click cancel, each step wrapped in
its own try/catch and always attempted. -/
def runLiveAppTests (ws : ChromeWs) (tabIndex : Nat) (baseUrl : String) (iteration : Nat) :
    List (String × Outcome) :=
  match ws.navigate tabIndex (baseUrl ++ "/settings") with
  | .error e => [("Navigate to settings", Outcome.failure e)]
  | .ok _ =>
    [("Navigate to settings", Outcome.success none),
     ("Click New Organization (XPath)", outcomeOfUnit (ws.click tabIndex newOrgXPath)),
     ("Type org name",
       outcomeOfUnit (ws.fill tabIndex ("TestOrg" ++ toString iteration) "form input[type=\x22text\x22]")),
     ("Click Cancel", outcomeOfUnit (ws.click tabIndex "button[type=\x27button\x27]"))]

/-- Model of `testUrl.replace` with the pattern slash-nonslash-to-end: the
leftmost (hence only) match of that pattern starts at the LAST slash of the
string, so the replacement deletes the final slash-delimited segment; a
string without a slash is returned unchanged. -/
def replaceLastSegment (s : String) : String :=
  match s.data.reverse.findIdx? (fun c => c = '/') with
  | none => s
  | some k => ⟨s.data.take (s.data.length - (k + 1))⟩

/-- Decimal value of an ASCII digit character. -/
def digitVal (c : Char) : Nat := c.toNat - '0'.toNat

/-- Accumulating decimal decode of a most-significant-first digit list. -/
def decodeDigits (acc : Nat) (cs : List Char) : Nat :=
  cs.foldl (fun a c => a * 10 + digitVal c) acc

/-- Model of `parseInt` on a base-10 command-line argument: an optional sign
followed by the longest digit run; `none` models NaN (no digits). `parseInt`
would also skip leading whitespace and stop at the first non-digit, which
coincides with this on every argument shape the claims mention. -/
def parseIntDec (s : String) : Option Int :=
  match s.data with
  | '-' :: cs =>
    (if (cs.takeWhile (·.isDigit)).isEmpty then none
     else some (decodeDigits 0 (cs.takeWhile (·.isDigit)))).map (fun n => -(n : Int))
  | '+' :: cs =>
    (if (cs.takeWhile (·.isDigit)).isEmpty then none
     else some (decodeDigits 0 (cs.takeWhile (·.isDigit)))).map (fun n => (n : Int))
  | cs =>
    (if (cs.takeWhile (·.isDigit)).isEmpty then none
     else some (decodeDigits 0 (cs.takeWhile (·.isDigit)))).map (fun n => (n : Int))

/-- The default iteration count. -/
def DEFAULT_ITERATIONS : Int := 50

/-- The default test URL, `file://` plus the bundled fixture page path. The
`__dirname` part depends on the install location and is fixed arbitrarily
here; every value it can take starts with `file://`, so the live-app
dispatch test below is unaffected. -/
def DEFAULT_TEST_URL : String := "file://" ++ "/test-react-inputs.html"

/-- Character-list prefix test. -/
def isPrefixChars : List Char → List Char → Bool
  | [], _ => true
  | _ :: _, [] => false
  | c :: cs, d :: ds => if c = d then isPrefixChars cs ds else false

/-- Model of the JS `testUrl.startsWith(prefixString)` test: on the ASCII
strings involved, the JS code-unit prefix test is the character prefix
test. -/
def jsStartsWith (s pre : String) : Bool := isPrefixChars pre.data s.data

/-- `parseInt(args[0]) || DEFAULT_ITERATIONS`: the falsy fallback fires both
when the argument is absent or non-numeric (NaN) and when it parses to 0. -/
def parseIterations (arg : Option String) : Int :=
  match arg with
  | none => DEFAULT_ITERATIONS
  | some s =>
    match parseIntDec s with
    | none => DEFAULT_ITERATIONS
    | some n => if n = 0 then DEFAULT_ITERATIONS else n

/-- The iteration loop of `main`, from loop counter `i` with `n` iterations
left to run. The client is a family indexed by iteration (the behavior of the
external collaborator during that iteration). Fixed-page branch: the
unguarded `clearTestPage` runs first and its error aborts the whole loop;
otherwise `runIteration` records nine outcomes. Live-app branch: the four
(or one) outcomes of `runLiveAppTests` are recorded inline. -/
def runLoopFrom (wsAt : Nat → ChromeWs) (tabIndex : Nat) (isLiveApp : Bool)
    (baseUrl : String) : Nat → Nat → Results → Except String Results
  | _, 0, r => .ok r
  | i, n + 1, r =>
    if isLiveApp then
      runLoopFrom wsAt tabIndex isLiveApp baseUrl (i + 1) n
        (recordAll r i (runLiveAppTests (wsAt i) tabIndex baseUrl i))
    else
      match clearTestPage (wsAt i) tabIndex with
      | .error e => .error e
      | .ok _ =>
        runLoopFrom wsAt tabIndex isLiveApp baseUrl (i + 1) n
          (runIteration (wsAt i) tabIndex i r).1

/-- The iteration loop of `main`, `for i = 1 to iterations`. -/
def runLoop (wsAt : Nat → ChromeWs) (tabIndex iterations : Nat) (isLiveApp : Bool)
    (baseUrl : String) (r : Results) : Except String Results :=
  runLoopFrom wsAt tabIndex isLiveApp baseUrl 1 iterations r

/-- How a whole run ends: a fatal setup error (connect or first navigation,
`process.exit(1)` before any iteration), an exception escaping the loop
(caught by the outermost handler, which logs it and exits 1), or a completed
run reporting its results and exit code. -/
inductive RunEnd where
  | fatalSetup (message : String)
  | fatalLoop (message : String)
  | completed (results : Results) (exitCode : Nat)
deriving DecidableEq

/-- `process.exit(results.failed > 0 ? 1 : 0)`. -/
def exitCodeOf (r : Results) : Nat := if 0 < r.failed then 1 else 0

/-- `main()`: parse arguments, connect, navigate to the test URL, then run
the loop. The iteration count is the argument of the `for` loop; a
non-positive count runs zero iterations, modelled by `Int.toNat`. The
live-app base URL is `testUrl.replace` of the final segment, recomputed each
iteration in the source from the same pure inputs and hoisted here. -/
def mainRun (wsAt : Nat → ChromeWs) (args : List String) : RunEnd :=
  let iterations : Int := parseIterations (args.get? 0)
  let testUrl : String := (args.get? 1).getD DEFAULT_TEST_URL
  let isLiveApp : Bool := jsStartsWith testUrl "http://localhost"
  match (wsAt 0).initializeSession with
  | .error e => .fatalSetup e
  | .ok tabIndex =>
    match (wsAt 0).navigate tabIndex testUrl with
    | .error e => .fatalSetup e
    | .ok _ =>
      match runLoop wsAt tabIndex iterations.toNat isLiveApp
          (replaceLastSegment testUrl) initialResults with
      | .error e => .fatalLoop e
      | .ok r => .completed r (exitCodeOf r)

/-- The failure-rate percentage `failed / (passed + failed) * 100` as an
exact rational; `none` models the NaN produced by the JS division 0/0 when
no steps ran. -/
def failRatePercent (r : Results) : Option ℚ :=
  if r.passed + r.failed = 0 then none
  else some ((r.failed : ℚ) / ((r.passed : ℚ) + (r.failed : ℚ)) * 100)

/-- Decimal rendering with one fractional digit of `num / den * 100` percent
for `0 < den`, rounded to the nearest tenth with ties up, which is what
`toFixed(1)` produces for the non-negative values arising here: the rounded
tenths count is the floor of `1000 * num / den + 1 / 2`, computed exactly as
a natural division. Every concrete value the claims mention is reproduced
exactly by IEEE double arithmetic followed by `toFixed`, so exact arithmetic
is a faithful model at those points. -/
def toFixed1OfRatio (num den : Nat) : String :=
  let tenths := (2000 * num + den) / (2 * den)
  toString (tenths / 10) ++ "." ++ toString (tenths % 10)

/-- The printed failure-rate string: `toFixed(1)` of the rate, which is the
string NaN for an empty run (JS: `(0/0*100).toFixed(1)` is NaN). -/
def failRateDisplay (r : Results) : String :=
  if r.passed + r.failed = 0 then "NaN"
  else toFixed1OfRatio r.failed (r.passed + r.failed)

/-- A client whose every call completes; eval returns a non-empty value. -/
def okClient : ChromeWs :=
  { initializeSession := .ok 0
    navigate := fun _ _ => .ok ()
    click := fun _ _ => .ok ()
    fill := fun _ _ _ => .ok ()
    eval := fun _ _ => .ok "x" }

/-- A client like `okClient` whose eval calls throw. -/
def evalFailClient : ChromeWs :=
  { okClient with eval := fun _ _ => .error "eval boom" }

/-- A client family that behaves like `okClient` except that every eval call
of iteration 2 throws. -/
def wsFailClearAt2 : Nat → ChromeWs :=
  fun i => if i = 2 then evalFailClient else okClient

/-- A client whose every call throws. -/
def failClient : ChromeWs :=
  { initializeSession := .error "boom"
    navigate := fun _ _ => .error "boom"
    click := fun _ _ => .error "boom"
    fill := fun _ _ _ => .error "boom"
    eval := fun _ _ => .error "boom" }

/-- A client like `okClient` whose navigation calls throw. -/
def navFailClient : ChromeWs :=
  { okClient with navigate := fun _ _ => .error "nav boom" }

/-- Truthiness of the `success` field of an Outcome. -/
def Outcome.isSuccess : Outcome → Bool
  | .success _ => true
  | .failure _ => false

/-- Every call of the client completes, and every eval yields a non-empty
value; the sense in which every automation action succeeds. -/
def allOkWs (ws : ChromeWs) : Prop :=
  (∀ t sel, ws.click t sel = .ok ()) ∧
  (∀ t text sel, ws.fill t text sel = .ok ()) ∧
  (∀ t expr, ∃ v, ws.eval t expr = .ok v ∧ 0 < v.length)

/-- Appends the decimal digits of `n` to an accumulator value; the abstract
effect on the decoded value of emitting the digits of `n`. -/
def pushNum (acc : Nat) (n : Nat) : Nat :=
  if n < 10 then acc * 10 + n
  else pushNum acc (n / 10) * 10 + n % 10
termination_by n
decreasing_by exact Nat.div_lt_self (by omega) (by omega)

/-!  General lemmas. -/

theorem record_success (r : Results) (i : Nat) (name : String) (v : Option String) :
    record r i name (.success v) = { r with passed := r.passed + 1 } := rfl

theorem record_failure (r : Results) (i : Nat) (name m : String) :
    record r i name (.failure m) =
      { r with failed := r.failed + 1, errors := r.errors ++ [⟨i, name, m⟩] } := rfl

theorem record_invariant (r : Results) (i : Nat) (name : String) (o : Outcome) :
    (record r i name o).passed + (record r i name o).failed = r.passed + r.failed + 1 ∧
    (record r i name o).errors.length + r.failed =
      (record r i name o).failed + r.errors.length := by
  cases o <;> simp [record] <;> omega

theorem recordSeq_invariant (calls : List (Nat × String × Outcome)) : ∀ r : Results,
    (recordSeq r calls).passed + (recordSeq r calls).failed =
      r.passed + r.failed + calls.length ∧
    (recordSeq r calls).errors.length + r.failed =
      (recordSeq r calls).failed + r.errors.length := by
  induction calls with
  | nil =>
    intro r
    have h0 : recordSeq r [] = r := rfl
    rw [h0]
    exact ⟨by simp, by omega⟩
  | cons c cs ih =>
    intro r
    have hstep : recordSeq r (c :: cs) = recordSeq (record r c.1 c.2.1 c.2.2) cs := rfl
    obtain ⟨h1, h2⟩ := ih (record r c.1 c.2.1 c.2.2)
    obtain ⟨g1, g2⟩ := record_invariant r c.1 c.2.1 c.2.2
    rw [hstep]
    constructor
    · rw [h1]; simp; omega
    · omega

theorem testType_allOk (ws : ChromeWs) (t : Nat) (sel text : String) (h : allOkWs ws) :
    ∃ v, testType ws t sel text = .success (some v) := by
  obtain ⟨-, hfill, heval⟩ := h
  obtain ⟨v, hv, hlen⟩ := heval t (readBackExpr sel)
  exact ⟨v, by simp [testType, hfill, hv, hlen]⟩

theorem runIteration_allOk (ws : ChromeWs) (t i : Nat) (r : Results) (h : allOkWs ws) :
    (runIteration ws t i r).1.passed = r.passed + 9 ∧
    (runIteration ws t i r).1.failed = r.failed ∧
    (runIteration ws t i r).1.errors = r.errors := by
  obtain ⟨v1, hv1⟩ := testType_allOk ws t "#controlled-input" ("test" ++ toString i) h
  obtain ⟨v2, hv2⟩ := testType_allOk ws t "#uncontrolled-input" ("test" ++ toString i) h
  obtain ⟨v3, hv3⟩ := testType_allOk ws t "#validated-input" "abc" h
  obtain ⟨v4, hv4⟩ := testType_allOk ws t "#nested-input" ("test" ++ toString i) h
  obtain ⟨v5, hv5⟩ := testType_allOk ws t "#transform-input" "hello" h
  obtain ⟨v6, hv6⟩ := testType_allOk ws t "#debounced-input" ("test" ++ toString i) h
  obtain ⟨v7, hv7⟩ := testType_allOk ws t "#email-input" "test@example.com" h
  obtain ⟨v8, hv8⟩ := testType_allOk ws t "#controlled-textarea" "line1\\nline2" h
  obtain ⟨hclick, -, -⟩ := h
  simp [runIteration, fixedPageSuite, runStep, testClick, outcomeOfUnit, recordAll, record,
    hclick, hv1, hv2, hv3, hv4, hv5, hv6, hv7, hv8]

theorem clearTestPage_allOk (ws : ChromeWs) (t : Nat) (h : allOkWs ws) :
    clearTestPage ws t = .ok () := by
  obtain ⟨-, -, heval⟩ := h
  obtain ⟨v, hv, -⟩ := heval t clearScript
  simp [clearTestPage, hv]

theorem runLoopFrom_allOk (wsAt : Nat → ChromeWs) (t : Nat) (baseUrl : String)
    (h : ∀ i, allOkWs (wsAt i)) :
    ∀ n i r, ∃ rr, runLoopFrom wsAt t false baseUrl i n r = .ok rr ∧
      rr.passed = r.passed + 9 * n ∧ rr.failed = r.failed ∧ rr.errors = r.errors := by
  intro n
  induction n with
  | zero => intro i r; exact ⟨r, rfl, by simp, rfl, rfl⟩
  | succ k ih =>
    intro i r
    obtain ⟨rr, hrr, hp, hf, he⟩ := ih (i + 1) (runIteration (wsAt i) t i r).1
    obtain ⟨hp9, hf9, he9⟩ := runIteration_allOk (wsAt i) t i r (h i)
    refine ⟨rr, ?_, by rw [hp, hp9]; ring, by rw [hf, hf9], by rw [he, he9]⟩
    simp [runLoopFrom, clearTestPage_allOk (wsAt i) t (h i), hrr]

theorem digitVal_digitChar : ∀ m, m < 10 → digitVal (Nat.digitChar m) = m := by decide

theorem pushNum_zero (n : Nat) : pushNum 0 n = n := by
  induction n using Nat.strong_induction_on with
  | _ n ih =>
    rw [pushNum]
    split
    · simp
    · rename_i hn
      rw [ih (n / 10) (Nat.div_lt_self (by omega) (by omega))]
      have := Nat.div_add_mod n 10
      omega

theorem decodeDigits_cons (acc : Nat) (c : Char) (l : List Char) :
    decodeDigits acc (c :: l) = decodeDigits (acc * 10 + digitVal c) l := rfl

theorem decode_toDigitsCore :
    ∀ fuel n acc l, n < fuel →
      decodeDigits acc (Nat.toDigitsCore 10 fuel n l) = decodeDigits (pushNum acc n) l := by
  intro fuel
  induction fuel with
  | zero => intro n acc l h; omega
  | succ f ih =>
    intro n acc l h
    have hmod : n % 10 < 10 := Nat.mod_lt n (by omega)
    by_cases h0 : n / 10 = 0
    · have hn10 : n < 10 := (Nat.div_eq_zero_iff (by omega)).mp h0
      have hstep : Nat.toDigitsCore 10 (f + 1) n l = Nat.digitChar (n % 10) :: l := by
        simp [Nat.toDigitsCore, h0]
      rw [hstep, decodeDigits_cons, digitVal_digitChar (n % 10) hmod,
        Nat.mod_eq_of_lt hn10, pushNum, if_pos hn10]
    · have hge : 10 ≤ n := by
        by_contra hlt
        exact h0 ((Nat.div_eq_zero_iff (by omega)).mpr (by omega))
      have hdiv : n / 10 < n := Nat.div_lt_self (by omega) (by omega)
      have hstep : Nat.toDigitsCore 10 (f + 1) n l =
          Nat.toDigitsCore 10 f (n / 10) (Nat.digitChar (n % 10) :: l) := by
        simp [Nat.toDigitsCore, h0]
      rw [hstep, ih (n / 10) acc (Nat.digitChar (n % 10) :: l) (by omega),
        decodeDigits_cons, digitVal_digitChar (n % 10) hmod]
      conv_rhs => rw [pushNum]
      rw [if_neg (by omega)]

theorem decode_repr (n : Nat) : decodeDigits 0 (Nat.repr n).data = n := by
  have h1 : (Nat.repr n).data = Nat.toDigitsCore 10 (n + 1) n [] := rfl
  rw [h1, decode_toDigitsCore (n + 1) n 0 [] (Nat.lt_succ_self n)]
  exact pushNum_zero n

theorem natToString_inj (m n : Nat) (h : (toString m : String) = toString n) : m = n := by
  have hd : (Nat.repr m).data = (Nat.repr n).data := congrArg String.data h
  have hdec := congrArg (decodeDigits 0) hd
  rwa [decode_repr, decode_repr] at hdec

theorem testPayload_ne (m n : Nat) (h : m ≠ n) :
    ("test" ++ toString m : String) ≠ "test" ++ toString n := by
  intro he
  apply h
  apply natToString_inj
  have hd := congrArg String.data he
  simp only [String.data_append] at hd
  exact String.ext (List.append_cancel_left hd)

theorem string_length_pos_iff (s : String) : 0 < s.length ↔ s ≠ "" := by
  cases s with
  | mk data => simp [String.length, List.length_pos, String.ext_iff]

theorem findIdx_slash (l l2 : List Char) (h : ∀ c ∈ l, c ≠ '/') :
    (l ++ '/' :: l2).findIdx? (fun c => c = '/') = some l.length := by
  induction l with
  | nil => simp [List.findIdx?_cons]
  | cons a as ih =>
    have ha : ¬ a = '/' := h a (List.mem_cons_self a as)
    simp [List.findIdx?_cons, ha, List.findIdx?_succ,
      ih (fun c hc => h c (List.mem_cons_of_mem a hc))]

theorem replaceLastSegment_append (p seg : String) (h : ∀ c ∈ seg.data, c ≠ '/') :
    replaceLastSegment (p ++ "/" ++ seg) = p := by
  obtain ⟨pd⟩ := p
  obtain ⟨sd⟩ := seg
  have hdata : (String.mk pd ++ "/" ++ String.mk sd).data = pd ++ '/' :: sd := by
    simp [String.data_append]
  have hrev : (String.mk pd ++ "/" ++ String.mk sd).data.reverse =
      sd.reverse ++ '/' :: pd.reverse := by
    rw [hdata]; simp
  have hfind : (String.mk pd ++ "/" ++ String.mk sd).data.reverse.findIdx?
      (fun c => c = '/') = some sd.reverse.length := by
    rw [hrev]
    exact findIdx_slash _ _ (fun c hc => h c (List.mem_reverse.mp hc))
  simp only [replaceLastSegment, hfind]
  rw [hdata]
  have hlen : (pd ++ '/' :: sd).length - (sd.reverse.length + 1) = pd.length := by
    simp [List.length_append]
  rw [hlen, List.take_left' rfl]

/-!  Claim theorems. -/

/-- C1 counterexample: for a run in which no steps ran the computed rate is
the JS division 0/0, which is NaN, and the printed rate is the string NaN,
not 0.0. -/
theorem emptyRun_rate_counterexample :
    failRatePercent initialResults = none ∧
    failRateDisplay initialResults = "NaN" ∧
    failRateDisplay initialResults ≠ "0.0" := by
  refine ⟨rfl, rfl, by decide⟩

/-- C1 (amended): the overall failure rate equals
failed / (passed + failed) (times 100 for display) whenever at least one
step ran; when no steps ran the division is 0/0 = NaN and the harness prints
NaN for an empty run rather than 0.0. -/
theorem failRate_formula (r : Results) (h : 0 < r.passed + r.failed) :
    failRatePercent r =
      some ((r.failed : ℚ) / ((r.passed : ℚ) + (r.failed : ℚ)) * 100) ∧
    failRateDisplay r = toFixed1OfRatio r.failed (r.passed + r.failed) ∧
    failRatePercent initialResults = none ∧
    failRateDisplay initialResults = "NaN" := by
  have hne : ¬ (r.passed + r.failed = 0) := by omega
  exact ⟨by simp [failRatePercent, hne], by simp [failRateDisplay, hne], rfl, rfl⟩

/-- C1 witness at passed = 24, failed = 3. -/
theorem failRate_formula_witness :
    failRatePercent { passed := 24, failed := 3, errors := [] } =
      some (((3 : Nat) : ℚ) / (((24 : Nat) : ℚ) + ((3 : Nat) : ℚ)) * 100) ∧
    failRateDisplay { passed := 24, failed := 3, errors := [] } = toFixed1OfRatio 3 27 ∧
    failRatePercent initialResults = none ∧
    failRateDisplay initialResults = "NaN" :=
  failRate_formula { passed := 24, failed := 3, errors := [] } (by decide)

set_option maxRecDepth 1000000 in
/-- C2 counterexample: an explicit first argument of 0 parses to the falsy 0,
so the default of 50 applies and, with an all-succeeding client, the run
performs 50 fixed-page suite invocations producing 450 recorded outcomes
instead of ending immediately with zero counts. -/
theorem zero_iterations_counterexample :
    parseIterations (some "0") = 50 ∧
    runLoop (fun _ => okClient) 0 (parseIterations (some "0")).toNat false ""
      initialResults = .ok { passed := 450, failed := 0, errors := [] } := by
  exact ⟨by decide, by decide⟩

set_option maxRecDepth 1000000 in
/-- C2 (amended): the first positional argument gives the iteration count
whenever it parses to a nonzero number; the default of 50 applies when the
argument is absent, non-numeric, or 0, so requesting 0 iterations actually
runs 50. A run that truly performs zero iterations (reachable with a
negative count) ends with passed = 0, failed = 0 and exit code 0, though its
printed rate is then NaN. -/
theorem iteration_count_parsing (s : String) (n : Int)
    (hp : parseIntDec s = some n) (hn : n ≠ 0) :
    parseIterations (some s) = n ∧
    parseIterations none = 50 ∧
    parseIterations (some "0") = 50 ∧
    parseIterations (some "abc") = 50 ∧
    mainRun (fun _ => okClient) ["-1"] = .completed initialResults 0 := by
  exact ⟨by simp [parseIterations, hp, hn], by decide, by decide, by decide, by decide⟩

/-- C2 witness at argument 7. -/
theorem iteration_count_parsing_witness :
    parseIterations (some "7") = 7 ∧
    parseIterations none = 50 ∧
    parseIterations (some "0") = 50 ∧
    parseIterations (some "abc") = 50 ∧
    mainRun (fun _ => okClient) ["-1"] = .completed initialResults 0 :=
  iteration_count_parsing "7" 7 (by decide) (by decide)

/-- C3 counterexample: the validated-input typing step (position 2 of the
typing-payload list) has the fixed payload abc in every iteration, so its
payload in iteration 1 equals its payload in iteration 2 even though the
indices differ. -/
theorem typing_payload_counterexample :
    (typingPayloads 1).get? 2 = some "abc" ∧
    (typingPayloads 2).get? 2 = some "abc" ∧
    (1 : Nat) ≠ 2 := by
  exact ⟨by decide, by decide, by decide⟩

/-- C3 (amended): only the controlled, uncontrolled, nested and debounced
typing steps embed the iteration index, and those payloads differ between
any two distinct iterations; the validated, transform, email and textarea
typing steps keep fixed payloads identical across iterations. -/
theorem typing_payloads_amended (i j : Nat) (h : i ≠ j) :
    typingPayloads i =
      ["test" ++ toString i, "test" ++ toString i, "abc", "test" ++ toString i,
       "hello", "test" ++ toString i, "test@example.com", "line1\\nline2"] ∧
    "test" ++ toString i ≠ "test" ++ toString j ∧
    (typingPayloads i).get? 2 = (typingPayloads j).get? 2 ∧
    (typingPayloads i).get? 4 = (typingPayloads j).get? 4 ∧
    (typingPayloads i).get? 6 = (typingPayloads j).get? 6 ∧
    (typingPayloads i).get? 7 = (typingPayloads j).get? 7 :=
  ⟨rfl, testPayload_ne i j h, rfl, rfl, rfl, rfl⟩

/-- C3 witness at iterations 1 and 2. -/
theorem typing_payloads_amended_witness :
    typingPayloads 1 =
      ["test" ++ toString 1, "test" ++ toString 1, "abc", "test" ++ toString 1,
       "hello", "test" ++ toString 1, "test@example.com", "line1\\nline2"] ∧
    "test" ++ toString 1 ≠ "test" ++ toString 2 ∧
    (typingPayloads 1).get? 2 = (typingPayloads 2).get? 2 ∧
    (typingPayloads 1).get? 4 = (typingPayloads 2).get? 4 ∧
    (typingPayloads 1).get? 6 = (typingPayloads 2).get? 6 ∧
    (typingPayloads 1).get? 7 = (typingPayloads 2).get? 7 :=
  typing_payloads_amended 1 2 (by decide)

set_option maxRecDepth 1000000 in
/-- C4 counterexample: with a client whose eval throws during iteration 2,
iteration 1 completes and records its nine outcomes, but the unguarded
pre-iteration clearTestPage call then rejects, the error escapes the loop,
and the whole run aborts mid-iterations through the outermost handler. -/
theorem clear_error_aborts_counterexample :
    runLoop wsFailClearAt2 0 1 false "" initialResults =
      .ok { passed := 9, failed := 0, errors := [] } ∧
    runLoop wsFailClearAt2 0 2 false "" initialResults = .error "eval boom" ∧
    mainRun wsFailClearAt2 [] = .fatalLoop "eval boom" := by
  exact ⟨by decide, by decide, by decide⟩

/-- C4 (amended): every exception raised by an automation-client call inside
a test step is caught at the step boundary and converted into a Failure
carrying the message, but the fixed-page pre-iteration input-clearing call
is not wrapped: an eval error there escapes the iteration loop and aborts
the run mid-iterations (only the outermost handler catches it, exiting 1),
in addition to the fatal connection and navigation setup errors. -/
theorem step_error_containment (ws : ChromeWs) (t : Nat) (sel text e : String) :
    (ws.click t sel = .error e → testClick ws t sel = .failure e) ∧
    (ws.fill t text sel = .error e → testType ws t sel text = .failure e) ∧
    (ws.fill t text sel = .ok () → ws.eval t (readBackExpr sel) = .error e →
      testType ws t sel text = .failure e) ∧
    (ws.fill t (text ++ "\\n") sel = .error e →
      testTypeAndEnter ws t sel text = .failure e) ∧
    (ws.click t sel = .error e → testXPathClick ws t sel = .failure e) ∧
    (∀ wsAt : Nat → ChromeWs, ∀ n baseUrl r,
      (wsAt 1).eval t clearScript = .error e → 0 < n →
      runLoop wsAt t n false baseUrl r = .error e) := by
  refine ⟨?_, ?_, ?_, ?_, ?_, ?_⟩
  · intro h; simp [testClick, outcomeOfUnit, h]
  · intro h; simp [testType, h]
  · intro h1 h2; simp [testType, h1, h2]
  · intro h; simp [testTypeAndEnter, outcomeOfUnit, h]
  · intro h; simp [testXPathClick, outcomeOfUnit, h]
  · intro wsAt n baseUrl r h hn
    obtain ⟨k, rfl⟩ : ∃ k, n = k + 1 := ⟨n - 1, by omega⟩
    show runLoopFrom wsAt t false baseUrl 1 (k + 1) r = .error e
    simp [runLoopFrom, clearTestPage, h]

/-- C4 witness: the step-boundary conversions at concrete failing clients and
the loop abort at a concrete eval-failing client. -/
theorem step_error_containment_witness :
    testClick failClient 0 "#test-button" = .failure "boom" ∧
    testType failClient 0 "#controlled-input" "t" = .failure "boom" ∧
    testType evalFailClient 0 "#controlled-input" "t" = .failure "eval boom" ∧
    testTypeAndEnter failClient 0 "#controlled-input" "t" = .failure "boom" ∧
    testXPathClick failClient 0 "//a" = .failure "boom" ∧
    runLoop (fun _ => evalFailClient) 0 1 false "" initialResults =
      .error "eval boom" :=
  ⟨(step_error_containment failClient 0 "#test-button" "t" "boom").1 rfl,
   (step_error_containment failClient 0 "#controlled-input" "t" "boom").2.1 rfl,
   (step_error_containment evalFailClient 0 "#controlled-input" "t" "eval boom").2.2.1
     rfl rfl,
   (step_error_containment failClient 0 "#controlled-input" "t" "boom").2.2.2.1 rfl,
   (step_error_containment failClient 0 "//a" "t" "boom").2.2.2.2.1 rfl,
   (step_error_containment evalFailClient 0 "" "t" "eval boom").2.2.2.2.2
     (fun _ => evalFailClient) 1 "" initialResults rfl (by decide)⟩

/-- C5: live-application per-iteration outcomes: if navigation fails the
iteration produces exactly one Failure (the navigation outcome) and no
further step outcomes; if navigation succeeds all remaining steps are
attempted whatever their own results, so the iteration produces exactly four
outcomes carrying the four fixed step names. -/
theorem liveApp_outcomes (ws : ChromeWs) (t : Nat) (baseUrl : String) (i : Nat) :
    (∀ e, ws.navigate t (baseUrl ++ "/settings") = .error e →
      runLiveAppTests ws t baseUrl i = [("Navigate to settings", Outcome.failure e)]) ∧
    (ws.navigate t (baseUrl ++ "/settings") = .ok () →
      (runLiveAppTests ws t baseUrl i).length = 4 ∧
      (runLiveAppTests ws t baseUrl i).map Prod.fst =
        ["Navigate to settings", "Click New Organization (XPath)", "Type org name",
         "Click Cancel"]) := by
  constructor
  · intro e h
    simp [runLiveAppTests, h]
  · intro h
    simp [runLiveAppTests, h]

/-- C5 witness: a navigation-failing client and an all-succeeding client at
iteration 1. -/
theorem liveApp_outcomes_witness :
    runLiveAppTests navFailClient 0 "http://localhost:3000" 1 =
      [("Navigate to settings", Outcome.failure "nav boom")] ∧
    (runLiveAppTests okClient 0 "http://localhost:3000" 1).length = 4 :=
  ⟨(liveApp_outcomes navFailClient 0 "http://localhost:3000" 1).1 "nav boom" rfl,
   ((liveApp_outcomes okClient 0 "http://localhost:3000" 1).2 rfl).1⟩

/-- C6: after any sequence of record calls starting from the initial results,
passed plus failed equals the number of outcomes observed; each call
increments exactly one of the two counters, and a FailureRecord is appended
exactly on the failure branch (so the failure list length always equals the
failed counter). -/
theorem aggregator_invariant (calls : List (Nat × String × Outcome)) :
    (recordSeq initialResults calls).passed + (recordSeq initialResults calls).failed =
      calls.length ∧
    (recordSeq initialResults calls).errors.length =
      (recordSeq initialResults calls).failed ∧
    (∀ r i name v, record r i name (.success v) = { r with passed := r.passed + 1 }) ∧
    (∀ r i name m, record r i name (.failure m) =
      { r with failed := r.failed + 1, errors := r.errors ++ [⟨i, name, m⟩] }) := by
  obtain ⟨h1, h2⟩ := recordSeq_invariant calls initialResults
  refine ⟨?_, ?_, fun r i name v => rfl, fun r i name m => rfl⟩
  · simpa [initialResults] using h1
  · have h0p : initialResults.failed = 0 := rfl
    have h0e : initialResults.errors.length = 0 := rfl
    omega

/-- C7: for every N, running the fixed-page strategy for N iterations records
exactly 9 N outcomes, one per step per iteration, when every automation
action succeeds: the loop completes with passed = 9 N, failed = 0 and no
failure records. -/
theorem fixedPage_outcome_count (wsAt : Nat → ChromeWs) (t N : Nat) (baseUrl : String)
    (h : ∀ i, allOkWs (wsAt i)) :
    ∃ r, runLoop wsAt t N false baseUrl initialResults = .ok r ∧
      r.passed + r.failed = 9 * N ∧ r.passed = 9 * N ∧ r.failed = 0 ∧ r.errors = [] := by
  obtain ⟨rr, hrr, hp, hf, he⟩ := runLoopFrom_allOk wsAt t baseUrl h N 1 initialResults
  have h0p : initialResults.passed = 0 := rfl
  have h0f : initialResults.failed = 0 := rfl
  have h0e : initialResults.errors = [] := rfl
  refine ⟨rr, hrr, by omega, by omega, by omega, by rw [he, h0e]⟩

/-- C7 witness: three all-succeeding iterations give 27 outcomes. -/
theorem fixedPage_outcome_count_witness :
    ∃ r, runLoop (fun _ => okClient) 0 3 false "" initialResults = .ok r ∧
      r.passed + r.failed = 9 * 3 ∧ r.passed = 9 * 3 ∧ r.failed = 0 ∧ r.errors = [] :=
  fixedPage_outcome_count (fun _ => okClient) 0 3 ""
    (fun _ => ⟨fun _ _ => rfl, fun _ _ _ => rfl, fun _ _ => ⟨"x", rfl, by decide⟩⟩)

/-- C8: the printed one-decimal failure-rate percentage is 0.0 whenever
failed = 0 and at least one step ran, 100.0 whenever passed = 0 and
failed > 0, and 11.1 for passed = 24 and failed = 3 (100 times 3 / 27
rounded to one decimal). -/
theorem failRate_display_values (passed failed : Nat)
    (hp : 0 < passed) (hf : 0 < failed) :
    failRateDisplay { passed := passed, failed := 0, errors := [] } = "0.0" ∧
    failRateDisplay { passed := 0, failed := failed, errors := [] } = "100.0" ∧
    failRateDisplay { passed := 24, failed := 3, errors := [] } = "11.1" := by
  refine ⟨?_, ?_, by decide⟩
  · have hne : ¬ (passed + 0 = 0) := by omega
    simp only [failRateDisplay, hne, if_false, toFixed1OfRatio]
    have h0 : (2000 * 0 + (passed + 0)) / (2 * (passed + 0)) = 0 :=
      Nat.div_eq_of_lt (by omega)
    rw [h0]
    rfl
  · have hne : ¬ (0 + failed = 0) := by omega
    simp only [failRateDisplay, hne, if_false, toFixed1OfRatio]
    have h1000 : (2000 * failed + (0 + failed)) / (2 * (0 + failed)) = 1000 :=
      Nat.div_eq_of_lt_le (by omega) (by omega)
    rw [h1000]
    rfl

/-- C8 witness at passed = 1, failed = 1. -/
theorem failRate_display_values_witness :
    failRateDisplay { passed := 1, failed := 0, errors := [] } = "0.0" ∧
    failRateDisplay { passed := 0, failed := 1, errors := [] } = "100.0" ∧
    failRateDisplay { passed := 24, failed := 3, errors := [] } = "11.1" :=
  failRate_display_values 1 1 (by decide) (by decide)

/-- C9: a type-and-verify step succeeds exactly when the fill call and the
read-back eval both complete and the read-back value is a non-empty string;
in every other case it returns a Failure carrying a message. -/
theorem testType_success_characterization (ws : ChromeWs) (t : Nat) (sel text : String) :
    ((testType ws t sel text).isSuccess = true ↔
      (ws.fill t text sel = .ok () ∧
        ∃ v, ws.eval t (readBackExpr sel) = .ok v ∧ v ≠ "")) ∧
    ((testType ws t sel text).isSuccess = false →
      ∃ m, testType ws t sel text = .failure m) := by
  cases hfill : ws.fill t text sel with
  | error e =>
    constructor
    · simp [testType, hfill, Outcome.isSuccess]
    · intro hfalse
      exact ⟨e, by simp [testType, hfill]⟩
  | ok u =>
    cases u
    cases heval : ws.eval t (readBackExpr sel) with
    | error e =>
      constructor
      · simp [testType, hfill, heval, Outcome.isSuccess]
      · intro hfalse
        exact ⟨e, by simp [testType, hfill, heval]⟩
    | ok v =>
      by_cases hv : 0 < v.length
      · have hT : testType ws t sel text = .success (some v) := by
          simp [testType, hfill, heval, hv]
        rw [hT]
        constructor
        · exact ⟨fun hgoal => ⟨rfl, v, rfl, (string_length_pos_iff v).mp hv⟩,
            fun hgoal => rfl⟩
        · intro hfalse
          exact absurd hfalse (by simp [Outcome.isSuccess])
      · have hT : testType ws t sel text =
            .failure ("Value not set. Expected text, got: \"" ++ v ++ "\"") := by
          simp [testType, hfill, heval, hv]
        rw [hT]
        constructor
        · constructor
          · intro hfalse
            exact absurd hfalse (by simp [Outcome.isSuccess])
          · rintro ⟨-, w, hw, hwne⟩
            injection hw with hvw
            subst hvw
            exact absurd ((string_length_pos_iff v).mpr hwne) hv
        · intro hfalse
          exact ⟨"Value not set. Expected text, got: \"" ++ v ++ "\"", rfl⟩

/-- C9 witness: a succeeding and a failing concrete client. -/
theorem testType_success_characterization_witness :
    (testType okClient 0 "#controlled-input" "t").isSuccess = true ∧
    (∃ m, testType failClient 0 "#controlled-input" "t" = .failure m) :=
  ⟨(testType_success_characterization okClient 0 "#controlled-input" "t").1.mpr
      ⟨rfl, "x", rfl, by decide⟩,
   (testType_success_characterization failClient 0 "#controlled-input" "t").2
      (by decide)⟩

/-- C10: the live-app base URL deletes the final slash-delimited segment of
the target URL: a URL ending in a path segment maps to its prefix before the
last slash (navigation then targets prefix/settings), while the bare
http://localhost:3000 loses /localhost:3000, giving base http:/ and
navigation target http://settings. -/
theorem baseUrl_replace (p seg : String) (h : ∀ c ∈ seg.data, c ≠ '/') :
    replaceLastSegment (p ++ "/" ++ seg) = p ∧
    replaceLastSegment "http://localhost:8080/settings" = "http://localhost:8080" ∧
    replaceLastSegment "http://localhost:8080/settings" ++ "/settings" =
      "http://localhost:8080/settings" ∧
    replaceLastSegment "http://localhost:3000" = "http:/" ∧
    replaceLastSegment "http://localhost:3000" ++ "/settings" = "http://settings" :=
  ⟨replaceLastSegment_append p seg h, by decide, by decide, by decide, by decide⟩

/-- C10 witness at a URL ending in a path segment. -/
theorem baseUrl_replace_witness :
    replaceLastSegment ("http://localhost:8080" ++ "/" ++ "settings") =
      "http://localhost:8080" ∧
    replaceLastSegment "http://localhost:8080/settings" = "http://localhost:8080" ∧
    replaceLastSegment "http://localhost:8080/settings" ++ "/settings" =
      "http://localhost:8080/settings" ∧
    replaceLastSegment "http://localhost:3000" = "http:/" ∧
    replaceLastSegment "http://localhost:3000" ++ "/settings" = "http://settings" :=
  baseUrl_replace "http://localhost:8080" "settings" (by decide)

end TestHarness
